import Mathlib

/-!
Shallow embedding of the battery-risk classification and emergency-incident
lifecycle engine of the BatteryHackathon repository (src/unnamed/part_000,
src/unnamed/part_001, src/src/types.ts), together with theorems settling the
frozen claims about it.

Modelling conventions:
* TypeScript numbers used for temperatures and battery levels are modelled as
  rationals; cycle counts as integers.
* Timestamps (Date.now in milliseconds, and ISO strings derived from the same
  instant) are modelled as a single natural number passed explicitly, since the
  source reads the clock as a side effect.
* Fields of the source records that are produced purely by the random
  synthesizer and never read by any of the operations under study
  (lastInspectionDate, voltageStability, vehicle type/model/status) are
  omitted from the records.
-/

namespace BatteryHackathon

/-- Risk enum of src/src/types.ts: type BatteryRiskLevel. -/
inductive BatteryRiskLevel where
  | low
  | moderate
  | high
  | critical
deriving DecidableEq, Repr

/-- Status enum of src/src/types.ts: status field of EmergencyIncident. -/
inductive IncidentStatus where
  | pending
  | responded
  | resolved
deriving DecidableEq, Repr

/-- Geographic location record of src/src/types.ts. -/
structure Location where
  latitude : ℚ
  longitude : ℚ
deriving DecidableEq, Repr

/-- responseDetails record of src/src/types.ts (all fields optional). -/
structure ResponseDetails where
  respondedAt : Option Nat
  resolvedAt : Option Nat
  notes : Option String
deriving DecidableEq, Repr

/-- Spread of a possibly-undefined responseDetails object, as in
the source expression with three dots applied to incident.responseDetails:
an undefined object spreads to the empty object. -/
def emptyResponseDetails : ResponseDetails :=
  { respondedAt := none, resolvedAt := none, notes := none }

/-- EmergencyIncident record of src/src/types.ts. -/
structure EmergencyIncident where
  id : String
  vehicleId : String
  timestamp : Nat
  location : Location
  temperature : ℚ
  batteryLevel : ℚ
  riskLevel : BatteryRiskLevel
  status : IncidentStatus
  responseDetails : Option ResponseDetails
deriving DecidableEq, Repr

/-- BatteryHealth record of src/src/types.ts, restricted to the fields read by
the classifier and the incident operations. -/
structure BatteryHealth where
  riskLevel : BatteryRiskLevel
  temperature : ℚ
  cycleCount : ℤ
  requiresEmergencyResponse : Bool
deriving DecidableEq, Repr

/-- Vehicle record of src/src/types.ts, restricted to the fields read by the
incident operations. -/
structure Vehicle where
  id : String
  location : Location
  batteryLevel : ℚ
  batteryHealth : BatteryHealth
deriving DecidableEq, Repr

/-- EMERGENCY_THRESHOLDS constant of src/unnamed/part_000 lines 37-42. -/
structure Thresholds where
  CRITICAL_TEMP : ℚ
  HIGH_TEMP : ℚ
  CRITICAL_VOLTAGE : ℚ
  CRITICAL_BATTERY : ℚ

def EMERGENCY_THRESHOLDS : Thresholds :=
  { CRITICAL_TEMP := 47
    HIGH_TEMP := 43
    CRITICAL_VOLTAGE := 85
    CRITICAL_BATTERY := 15 }

/-- generateBatteryHealth of src/unnamed/part_000 lines 57-106.  In the source
the temperature is sampled with Math.random inside the function body and then
fed to the threshold rules; here the sampled temperature is a parameter, so the
function is exactly the deterministic part of the source: the emergency flag
(lines 74-76) and the riskLevel if/else chain (lines 78-96), echoing its
inputs. -/
def generateBatteryHealth (temperature batteryLevel : ℚ) (cycleCount : ℤ) :
    BatteryHealth :=
  let requiresEmergencyResponse : Bool :=
    decide (temperature > EMERGENCY_THRESHOLDS.CRITICAL_TEMP) ||
      (decide (temperature > EMERGENCY_THRESHOLDS.HIGH_TEMP) &&
        decide (batteryLevel < EMERGENCY_THRESHOLDS.CRITICAL_BATTERY))
  let riskLevel : BatteryRiskLevel :=
    if temperature > EMERGENCY_THRESHOLDS.CRITICAL_TEMP ∨
        (temperature > EMERGENCY_THRESHOLDS.HIGH_TEMP ∧
          batteryLevel < EMERGENCY_THRESHOLDS.CRITICAL_BATTERY) ∨
        cycleCount > 900 then
      .critical
    else if temperature > EMERGENCY_THRESHOLDS.HIGH_TEMP ∨
        (batteryLevel < 25 ∧ temperature > 38) ∨
        cycleCount > 700 then
      .high
    else if temperature > 38 ∨ batteryLevel < 30 ∨ cycleCount > 500 then
      .moderate
    else
      .low
  { riskLevel := riskLevel
    temperature := temperature
    cycleCount := cycleCount
    requiresEmergencyResponse := requiresEmergencyResponse }

/-- Severity order low < moderate < high < critical of the risk enum, used to
state monotonicity. -/
def severityRank : BatteryRiskLevel → Nat
  | .low => 0
  | .moderate => 1
  | .high => 2
  | .critical => 3

/-- Incident id template of generateEmergencyIncident, src/unnamed/part_000
line 46: the string incident-T-V for clock value T and vehicle id V. -/
def mkIncidentId (now : Nat) (vehicleId : String) : String :=
  "incident-" ++ toString now ++ "-" ++ vehicleId

/-- generateEmergencyIncident of src/unnamed/part_000 lines 44-55. -/
def generateEmergencyIncident (now : Nat) (vehicle : Vehicle) :
    EmergencyIncident :=
  { id := mkIncidentId now vehicle.id
    vehicleId := vehicle.id
    timestamp := now
    location := vehicle.location
    temperature := vehicle.batteryHealth.temperature
    batteryLevel := vehicle.batteryLevel
    riskLevel := vehicle.batteryHealth.riskLevel
    status := .pending
    responseDetails := none }

/-- Replacement of the matching incident, src/unnamed/part_000 lines 499-503:
the onUpdateIncident callback maps over the collection and substitutes the
updated incident for every entry whose id matches. -/
def onUpdateIncident (upd : EmergencyIncident)
    (incidents : List EmergencyIncident) : List EmergencyIncident :=
  incidents.map (fun incident => if incident.id = upd.id then upd else incident)

/-- handleRespond of src/unnamed/part_001 lines 27-36: spread of the incident
with status responded and respondedAt stamped, other responseDetails fields
spread through. -/
def handleRespond (now : Nat) (incident : EmergencyIncident) :
    EmergencyIncident :=
  { incident with
    status := .responded
    responseDetails :=
      some { incident.responseDetails.getD emptyResponseDetails with
              respondedAt := some now } }

/-- handleResolve of src/unnamed/part_001 lines 38-47 (identical in
src/unnamed/part_002 lines 62-71): spread of the incident with status resolved
and resolvedAt stamped, unconditionally. -/
def handleResolve (now : Nat) (incident : EmergencyIncident) :
    EmergencyIncident :=
  { incident with
    status := .resolved
    responseDetails :=
      some { incident.responseDetails.getD emptyResponseDetails with
              resolvedAt := some now } }

/-- The Mark Responded user operation.  The dashboard renders the button only
inside the list of incidents filtered to status pending (src/unnamed/part_001
lines 18 and 67-114), and the click applies handleRespond to that incident and
hands the result to onUpdateIncident (src/unnamed/part_000 lines 498-503).  We
model the click by locating the pending incident with the given id. -/
def markResponded (now : Nat) (iid : String)
    (incidents : List EmergencyIncident) : List EmergencyIncident :=
  match incidents.find? (fun i => decide (i.id = iid) &&
      decide (i.status = IncidentStatus.pending)) with
  | some i => onUpdateIncident (handleRespond now i) incidents
  | none => incidents

/-- The Mark Resolved user operation.  The dashboard renders the button only
inside the list of incidents filtered to status responded (src/unnamed/part_001
lines 19 and 145-192), and the click applies handleResolve to that incident and
hands the result to onUpdateIncident. -/
def markResolved (now : Nat) (iid : String)
    (incidents : List EmergencyIncident) : List EmergencyIncident :=
  match incidents.find? (fun i => decide (i.id = iid) &&
      decide (i.status = IncidentStatus.responded)) with
  | some i => onUpdateIncident (handleResolve now i) incidents
  | none => incidents

/-- checkForEmergencies of src/unnamed/part_000 lines 256-303.  The loop reads
the incident list captured by the effect closure (so every vehicle is tested
against the collection as it was when the scan started) and appends, through
functional state updates, one new pending incident for every vehicle whose
requiresEmergencyResponse flag is set and for which no incident with a status
other than resolved is present. -/
def checkForEmergencies (now : Nat) (vehicles : List Vehicle)
    (incidents : List EmergencyIncident) : List EmergencyIncident :=
  incidents ++
    (vehicles.filter (fun v =>
        v.batteryHealth.requiresEmergencyResponse &&
          !(incidents.any (fun i => decide (i.vehicleId = v.id) &&
              !(decide (i.status = IncidentStatus.resolved)))))).map
      (generateEmergencyIncident now)

/-- focusOnVehicle of src/unnamed/part_000 lines 211-227, restricted to its
effect on the incident collection (it also moves the map view, which holds no
incident state): a new pending incident is appended only when no incident for
the vehicle with status pending or responded is present. -/
def focusOnVehicle (now : Nat) (vehicle : Vehicle)
    (incidents : List EmergencyIncident) : List EmergencyIncident :=
  if incidents.any (fun i => decide (i.vehicleId = vehicle.id) &&
      (decide (i.status = IncidentStatus.pending) ||
        decide (i.status = IncidentStatus.responded))) then
    incidents
  else
    incidents ++ [generateEmergencyIncident now vehicle]

/-- An incident is open when its status is pending or responded. -/
def isOpenIncident (i : EmergencyIncident) : Bool :=
  decide (i.status = IncidentStatus.pending) ||
    decide (i.status = IncidentStatus.responded)

/-- Open incidents of a given vehicle. -/
def openFor (vid : String) (i : EmergencyIncident) : Bool :=
  decide (i.vehicleId = vid) && isOpenIncident i

/-- Number of open incidents referencing a given vehicle id. -/
def openCount (incidents : List EmergencyIncident) (vid : String) : Nat :=
  incidents.countP (openFor vid)

/-- Normal form of the riskLevel computation of generateBatteryHealth with the
threshold constants inlined; holds by definitional unfolding. -/
theorem generateBatteryHealth_riskLevel (t l : ℚ) (c : ℤ) :
    (generateBatteryHealth t l c).riskLevel =
      if t > 47 ∨ (t > 43 ∧ l < 15) ∨ c > 900 then .critical
      else if t > 43 ∨ (l < 25 ∧ t > 38) ∨ c > 700 then .high
      else if t > 38 ∨ l < 30 ∨ c > 500 then .moderate
      else .low :=
  rfl

/-- Normal form of the requiresEmergencyResponse computation of
generateBatteryHealth with the threshold constants inlined. -/
theorem generateBatteryHealth_flag (t l : ℚ) (c : ℤ) :
    (generateBatteryHealth t l c).requiresEmergencyResponse =
      (decide (t > 47) || (decide (t > 43) && decide (l < 15))) :=
  rfl

/-- C4: the risk classifier evaluates its rules first-match, most severe
first: the result is critical iff temperature exceeds 47, or temperature
exceeds 43 and charge is below 15, or cycle count exceeds 900; otherwise high
iff temperature exceeds 43, or charge below 25 with temperature above 38, or
cycle count exceeds 700; otherwise moderate iff temperature exceeds 38, or
charge below 30, or cycle count exceeds 500; otherwise low. -/
theorem riskLevel_first_match (t l : ℚ) (c : ℤ) :
    ((generateBatteryHealth t l c).riskLevel = .critical ↔
      (t > 47 ∨ (t > 43 ∧ l < 15) ∨ c > 900)) ∧
    ((generateBatteryHealth t l c).riskLevel = .high ↔
      (¬(t > 47 ∨ (t > 43 ∧ l < 15) ∨ c > 900) ∧
        (t > 43 ∨ (l < 25 ∧ t > 38) ∨ c > 700))) ∧
    ((generateBatteryHealth t l c).riskLevel = .moderate ↔
      (¬(t > 47 ∨ (t > 43 ∧ l < 15) ∨ c > 900) ∧
        ¬(t > 43 ∨ (l < 25 ∧ t > 38) ∨ c > 700) ∧
        (t > 38 ∨ l < 30 ∨ c > 500))) ∧
    ((generateBatteryHealth t l c).riskLevel = .low ↔
      (¬(t > 47 ∨ (t > 43 ∧ l < 15) ∨ c > 900) ∧
        ¬(t > 43 ∨ (l < 25 ∧ t > 38) ∨ c > 700) ∧
        ¬(t > 38 ∨ l < 30 ∨ c > 500))) := by
  unfold generateBatteryHealth EMERGENCY_THRESHOLDS
  split_ifs with h1 h2 h3 <;> simp_all

/-- C5: the derived emergency flag is true iff temperature exceeds 47
(CRITICAL_TEMP), or temperature exceeds 43 (HIGH_TEMP) and charge is below 15
(CRITICAL_BATTERY); it does not depend on the cycle count. -/
theorem requiresEmergencyResponse_spec (t l : ℚ) (c c' : ℤ) :
    ((generateBatteryHealth t l c).requiresEmergencyResponse = true ↔
      (t > 47 ∨ (t > 43 ∧ l < 15))) ∧
    (generateBatteryHealth t l c).requiresEmergencyResponse =
      (generateBatteryHealth t l c').requiresEmergencyResponse := by
  unfold generateBatteryHealth EMERGENCY_THRESHOLDS
  simp

/-- C6: the classifier is monotone in temperature with respect to the severity
order low, moderate, high, critical: holding charge level and cycle count
fixed, a higher temperature never lowers the risk level. -/
theorem riskLevel_monotone_temperature (l : ℚ) (c : ℤ) (t1 t2 : ℚ)
    (h : t1 ≤ t2) :
    severityRank (generateBatteryHealth t1 l c).riskLevel ≤
      severityRank (generateBatteryHealth t2 l c).riskLevel := by
  have hcrit : (t1 > 47 ∨ (t1 > 43 ∧ l < 15) ∨ c > 900) →
      (t2 > 47 ∨ (t2 > 43 ∧ l < 15) ∨ c > 900) := by
    rintro (ht | ⟨ht, hl⟩ | hc)
    · exact Or.inl (by linarith)
    · exact Or.inr (Or.inl ⟨by linarith, hl⟩)
    · exact Or.inr (Or.inr hc)
  have hhigh : (t1 > 43 ∨ (l < 25 ∧ t1 > 38) ∨ c > 700) →
      (t2 > 43 ∨ (l < 25 ∧ t2 > 38) ∨ c > 700) := by
    rintro (ht | ⟨hl, ht⟩ | hc)
    · exact Or.inl (by linarith)
    · exact Or.inr (Or.inl ⟨hl, by linarith⟩)
    · exact Or.inr (Or.inr hc)
  have hmod : (t1 > 38 ∨ l < 30 ∨ c > 500) → (t2 > 38 ∨ l < 30 ∨ c > 500) := by
    rintro (ht | hl | hc)
    · exact Or.inl (by linarith)
    · exact Or.inr (Or.inl hl)
    · exact Or.inr (Or.inr hc)
  rw [generateBatteryHealth_riskLevel, generateBatteryHealth_riskLevel]
  by_cases h1 : t1 > 47 ∨ (t1 > 43 ∧ l < 15) ∨ c > 900
  · rw [if_pos h1, if_pos (hcrit h1)]
  · rw [if_neg h1]
    by_cases h2 : t1 > 43 ∨ (l < 25 ∧ t1 > 38) ∨ c > 700
    · rw [if_pos h2]
      by_cases h4 : t2 > 47 ∨ (t2 > 43 ∧ l < 15) ∨ c > 900
      · rw [if_pos h4]
        exact Nat.le_succ 2
      · rw [if_neg h4, if_pos (hhigh h2)]
    · rw [if_neg h2]
      by_cases h3 : t1 > 38 ∨ l < 30 ∨ c > 500
      · rw [if_pos h3]
        by_cases h4 : t2 > 47 ∨ (t2 > 43 ∧ l < 15) ∨ c > 900
        · rw [if_pos h4]
          show 1 ≤ 3
          omega
        · rw [if_neg h4]
          by_cases h5 : t2 > 43 ∨ (l < 25 ∧ t2 > 38) ∨ c > 700
          · rw [if_pos h5]
            exact Nat.le_succ 1
          · rw [if_neg h5, if_pos (hmod h3)]
      · rw [if_neg h3]
        exact Nat.zero_le _

/-- C6 witness. -/
theorem riskLevel_monotone_temperature_witness :
    severityRank (generateBatteryHealth 30 80 100).riskLevel ≤
      severityRank (generateBatteryHealth 50 80 100).riskLevel :=
  riskLevel_monotone_temperature 80 100 30 50 (by norm_num)

/-- C7: on the two specified inputs the classifier returns exactly the
specified outputs: at temperature 50, charge 10, cycles 100 the risk level is
critical and the emergency flag is true; at temperature 30, charge 80, cycles
100 the risk level is low and the emergency flag is false. -/
theorem classifier_scenarios :
    (generateBatteryHealth 50 10 100).riskLevel = .critical ∧
    (generateBatteryHealth 50 10 100).requiresEmergencyResponse = true ∧
    (generateBatteryHealth 30 80 100).riskLevel = .low ∧
    (generateBatteryHealth 30 80 100).requiresEmergencyResponse = false := by
  refine ⟨?_, ?_, ?_, ?_⟩ <;> norm_num [generateBatteryHealth, EMERGENCY_THRESHOLDS]

/-- C8: the classifier is a pure, total, deterministic function: for every
rational temperature and charge and integer cycle count it yields one of the
four risk levels, and equal inputs give equal results. -/
theorem classifier_total_deterministic (t t' l l' : ℚ) (c c' : ℤ)
    (ht : t = t') (hl : l = l') (hc : c = c') :
    ((generateBatteryHealth t l c).riskLevel = .low ∨
      (generateBatteryHealth t l c).riskLevel = .moderate ∨
      (generateBatteryHealth t l c).riskLevel = .high ∨
      (generateBatteryHealth t l c).riskLevel = .critical) ∧
    generateBatteryHealth t l c = generateBatteryHealth t' l' c' := by
  subst ht hl hc
  refine ⟨?_, rfl⟩
  cases h : (generateBatteryHealth t l c).riskLevel <;> simp

/-- C8 witness. -/
theorem classifier_total_deterministic_witness :
    ((generateBatteryHealth 30 80 100).riskLevel = .low ∨
      (generateBatteryHealth 30 80 100).riskLevel = .moderate ∨
      (generateBatteryHealth 30 80 100).riskLevel = .high ∨
      (generateBatteryHealth 30 80 100).riskLevel = .critical) ∧
    generateBatteryHealth 30 80 100 = generateBatteryHealth 30 80 100 :=
  classifier_total_deterministic 30 30 80 80 100 100 rfl rfl rfl

/-- C3: the periodic scan is idempotent under unchanged vehicle state: running
checkForEmergencies a second time over the same vehicle list (at any later
clock value) adds no incident, because every vehicle that triggered the first
scan now has a pending incident and every vehicle that did not trigger it
still fails its guard. -/
theorem checkForEmergencies_idempotent (t1 t2 : Nat) (vs : List Vehicle)
    (incs : List EmergencyIncident) :
    checkForEmergencies t2 vs (checkForEmergencies t1 vs incs) =
      checkForEmergencies t1 vs incs := by
  conv_lhs => rw [checkForEmergencies]
  have h : (vs.filter (fun v =>
      v.batteryHealth.requiresEmergencyResponse &&
        !((checkForEmergencies t1 vs incs).any (fun i =>
            decide (i.vehicleId = v.id) &&
              !(decide (i.status = IncidentStatus.resolved)))))) = [] := by
    rw [List.filter_eq_nil_iff]
    intro v hv hcontra
    rw [Bool.and_eq_true] at hcontra
    obtain ⟨hemerg, hnot⟩ := hcontra
    rw [Bool.not_eq_true'] at hnot
    have hany : (checkForEmergencies t1 vs incs).any (fun i =>
        decide (i.vehicleId = v.id) &&
          !(decide (i.status = IncidentStatus.resolved))) = true := by
      by_cases hprev : incs.any (fun i => decide (i.vehicleId = v.id) &&
          !(decide (i.status = IncidentStatus.resolved))) = true
      · rcases List.any_eq_true.mp hprev with ⟨i, hi, hpi⟩
        exact List.any_eq_true.mpr ⟨i, List.mem_append_left _ hi, hpi⟩
      · have hprev' : (incs.any (fun i => decide (i.vehicleId = v.id) &&
            !(decide (i.status = IncidentStatus.resolved)))) = false :=
          Bool.eq_false_iff.mpr hprev
        have hvf : v ∈ vs.filter (fun v =>
            v.batteryHealth.requiresEmergencyResponse &&
              !(incs.any (fun i => decide (i.vehicleId = v.id) &&
                  !(decide (i.status = IncidentStatus.resolved))))) :=
          List.mem_filter.mpr ⟨hv, by simp [hemerg, hprev']⟩
        refine List.any_eq_true.mpr ⟨generateEmergencyIncident t1 v,
          List.mem_append_right _ (List.mem_map_of_mem _ hvf), ?_⟩
        simp [generateEmergencyIncident]
    rw [hany] at hnot
    exact absurd hnot (by decide)
  rw [h, List.map_nil, List.append_nil]

/-- Incident used as a concrete input by several settled claims: an open,
pending incident for vehicle v1. -/
def samplePendingIncident : EmergencyIncident :=
  { id := "incident-1-v1"
    vehicleId := "v1"
    timestamp := 1
    location := { latitude := 0, longitude := 0 }
    temperature := 50
    batteryLevel := 10
    riskLevel := .critical
    status := .pending
    responseDetails := none }

/-- C2 counterexample: calling the resolve handler on a pending incident does
not leave the collection unchanged, contrary to the claim; the status of the
incident jumps from pending directly to resolved. -/
theorem resolve_pending_changes_collection :
    onUpdateIncident (handleResolve 2 samplePendingIncident)
        [samplePendingIncident] ≠ [samplePendingIncident] := by
  decide

/-- C2 (amended): handleResolve performs no status check of its own: applied
to a pending incident it returns the incident with status resolved (skipping
responded) and resolvedAt stamped.  The forward-only transition order is
enforced by the dashboard alone, which renders a resolve button only on
responded incidents, so the Mark Resolved user operation leaves every
collection unchanged in which all incidents carrying the given id are
pending. -/
theorem handleResolve_unguarded (now : Nat) (i : EmergencyIncident)
    (iid : String) (incs : List EmergencyIncident)
    (_hi : i.status = .pending)
    (hall : ∀ j ∈ incs, j.id = iid → j.status = IncidentStatus.pending) :
    (handleResolve now i).status = .resolved ∧
      markResolved now iid incs = incs := by
  refine ⟨rfl, ?_⟩
  unfold markResolved
  have h : incs.find? (fun j => decide (j.id = iid) &&
      decide (j.status = IncidentStatus.responded)) = none := by
    rw [List.find?_eq_none]
    intro j hj
    simp only [Bool.and_eq_true, decide_eq_true_eq, not_and]
    intro hid
    rw [hall j hj hid]
    simp
  rw [h]

/-- C2 witness. -/
theorem handleResolve_unguarded_witness :
    (handleResolve 2 samplePendingIncident).status = .resolved ∧
      markResolved 2 "incident-1-v1" [samplePendingIncident] =
        [samplePendingIncident] :=
  handleResolve_unguarded 2 samplePendingIncident "incident-1-v1"
    [samplePendingIncident] rfl (by decide)

/-- A second concrete vehicle, with no emergency, used as input by witnesses. -/
def sampleOtherVehicle : Vehicle :=
  { id := "v2"
    location := { latitude := 0, longitude := 0 }
    batteryLevel := 50
    batteryHealth := generateBatteryHealth 20 50 0 }

/-- C9: incidents are never deleted and non-target incidents are never
modified.  For a collection with unique incident ids containing the clicked
incident, applying the respond or resolve update replaces only the incident
whose id matches: the collection keeps its length, every incident with a
different id is kept as is, any two incidents of the collection sharing the
target id coincide with the clicked one, and the replacement changes only the
status and the responseDetails timestamps while id, vehicleId, creation
timestamp, location, temperature, battery level and risk-level snapshot stay
equal.  The two appending operations (the scan and focusOnVehicle) never
shrink the collection. -/
theorem incident_ops_frame (now t1 t2 : Nat) (i j : EmergencyIncident)
    (incs : List EmergencyIncident) (vs : List Vehicle) (v : Vehicle)
    (hmem : i ∈ incs) (huniq : (incs.map EmergencyIncident.id).Nodup)
    (hj : j ∈ incs) :
    (onUpdateIncident (handleRespond now i) incs).length = incs.length ∧
    (onUpdateIncident (handleResolve now i) incs).length = incs.length ∧
    (j.id ≠ i.id → j ∈ onUpdateIncident (handleRespond now i) incs) ∧
    (j.id ≠ i.id → j ∈ onUpdateIncident (handleResolve now i) incs) ∧
    (j.id = i.id → j = i) ∧
    handleRespond now i ∈ onUpdateIncident (handleRespond now i) incs ∧
    handleResolve now i ∈ onUpdateIncident (handleResolve now i) incs ∧
    (handleRespond now i).id = i.id ∧
    (handleRespond now i).vehicleId = i.vehicleId ∧
    (handleRespond now i).timestamp = i.timestamp ∧
    (handleRespond now i).location = i.location ∧
    (handleRespond now i).temperature = i.temperature ∧
    (handleRespond now i).batteryLevel = i.batteryLevel ∧
    (handleRespond now i).riskLevel = i.riskLevel ∧
    (handleRespond now i).status = .responded ∧
    ((handleRespond now i).responseDetails.getD emptyResponseDetails).notes =
      (i.responseDetails.getD emptyResponseDetails).notes ∧
    ((handleRespond now i).responseDetails.getD emptyResponseDetails).resolvedAt =
      (i.responseDetails.getD emptyResponseDetails).resolvedAt ∧
    (handleResolve now i).id = i.id ∧
    (handleResolve now i).vehicleId = i.vehicleId ∧
    (handleResolve now i).timestamp = i.timestamp ∧
    (handleResolve now i).location = i.location ∧
    (handleResolve now i).temperature = i.temperature ∧
    (handleResolve now i).batteryLevel = i.batteryLevel ∧
    (handleResolve now i).riskLevel = i.riskLevel ∧
    (handleResolve now i).status = .resolved ∧
    ((handleResolve now i).responseDetails.getD emptyResponseDetails).notes =
      (i.responseDetails.getD emptyResponseDetails).notes ∧
    ((handleResolve now i).responseDetails.getD emptyResponseDetails).respondedAt =
      (i.responseDetails.getD emptyResponseDetails).respondedAt ∧
    incs.length ≤ (checkForEmergencies t1 vs incs).length ∧
    incs.length ≤ (focusOnVehicle t2 v incs).length := by
  have hresp : ∀ upd : EmergencyIncident, upd.id = i.id →
      (onUpdateIncident upd incs).length = incs.length ∧
      (j.id ≠ i.id → j ∈ onUpdateIncident upd incs) ∧
      upd ∈ onUpdateIncident upd incs := by
    intro upd hid
    refine ⟨List.length_map _ _, fun hne => ?_, ?_⟩
    · exact List.mem_map.mpr ⟨j, hj, if_neg (by rw [hid]; exact hne)⟩
    · exact List.mem_map.mpr ⟨i, hmem, if_pos hid.symm⟩
  obtain ⟨hl1, hm1, hu1⟩ := hresp (handleRespond now i) rfl
  obtain ⟨hl2, hm2, hu2⟩ := hresp (handleResolve now i) rfl
  refine ⟨hl1, hl2, hm1, hm2, ?_, hu1, hu2,
    rfl, rfl, rfl, rfl, rfl, rfl, rfl, rfl, rfl, rfl,
    rfl, rfl, rfl, rfl, rfl, rfl, rfl, rfl, rfl, rfl, ?_, ?_⟩
  · exact fun hid => List.inj_on_of_nodup_map huniq hj hmem hid
  · rw [checkForEmergencies, List.length_append]
    exact Nat.le_add_right _ _
  · rw [focusOnVehicle]
    split
    · exact Nat.le_refl _
    · rw [List.length_append]
      exact Nat.le_add_right _ _

/-- C9 witness. -/
theorem incident_ops_frame_witness :
    (onUpdateIncident (handleRespond 2 samplePendingIncident)
        [samplePendingIncident]).length = [samplePendingIncident].length ∧
    (onUpdateIncident (handleResolve 2 samplePendingIncident)
        [samplePendingIncident]).length = [samplePendingIncident].length ∧
    (samplePendingIncident.id ≠ samplePendingIncident.id →
      samplePendingIncident ∈ onUpdateIncident
        (handleRespond 2 samplePendingIncident) [samplePendingIncident]) ∧
    (samplePendingIncident.id ≠ samplePendingIncident.id →
      samplePendingIncident ∈ onUpdateIncident
        (handleResolve 2 samplePendingIncident) [samplePendingIncident]) ∧
    (samplePendingIncident.id = samplePendingIncident.id →
      samplePendingIncident = samplePendingIncident) ∧
    handleRespond 2 samplePendingIncident ∈ onUpdateIncident
      (handleRespond 2 samplePendingIncident) [samplePendingIncident] ∧
    handleResolve 2 samplePendingIncident ∈ onUpdateIncident
      (handleResolve 2 samplePendingIncident) [samplePendingIncident] ∧
    (handleRespond 2 samplePendingIncident).id = samplePendingIncident.id ∧
    (handleRespond 2 samplePendingIncident).vehicleId =
      samplePendingIncident.vehicleId ∧
    (handleRespond 2 samplePendingIncident).timestamp =
      samplePendingIncident.timestamp ∧
    (handleRespond 2 samplePendingIncident).location =
      samplePendingIncident.location ∧
    (handleRespond 2 samplePendingIncident).temperature =
      samplePendingIncident.temperature ∧
    (handleRespond 2 samplePendingIncident).batteryLevel =
      samplePendingIncident.batteryLevel ∧
    (handleRespond 2 samplePendingIncident).riskLevel =
      samplePendingIncident.riskLevel ∧
    (handleRespond 2 samplePendingIncident).status = .responded ∧
    ((handleRespond 2 samplePendingIncident).responseDetails.getD
        emptyResponseDetails).notes =
      (samplePendingIncident.responseDetails.getD emptyResponseDetails).notes ∧
    ((handleRespond 2 samplePendingIncident).responseDetails.getD
        emptyResponseDetails).resolvedAt =
      (samplePendingIncident.responseDetails.getD
        emptyResponseDetails).resolvedAt ∧
    (handleResolve 2 samplePendingIncident).id = samplePendingIncident.id ∧
    (handleResolve 2 samplePendingIncident).vehicleId =
      samplePendingIncident.vehicleId ∧
    (handleResolve 2 samplePendingIncident).timestamp =
      samplePendingIncident.timestamp ∧
    (handleResolve 2 samplePendingIncident).location =
      samplePendingIncident.location ∧
    (handleResolve 2 samplePendingIncident).temperature =
      samplePendingIncident.temperature ∧
    (handleResolve 2 samplePendingIncident).batteryLevel =
      samplePendingIncident.batteryLevel ∧
    (handleResolve 2 samplePendingIncident).riskLevel =
      samplePendingIncident.riskLevel ∧
    (handleResolve 2 samplePendingIncident).status = .resolved ∧
    ((handleResolve 2 samplePendingIncident).responseDetails.getD
        emptyResponseDetails).notes =
      (samplePendingIncident.responseDetails.getD emptyResponseDetails).notes ∧
    ((handleResolve 2 samplePendingIncident).responseDetails.getD
        emptyResponseDetails).respondedAt =
      (samplePendingIncident.responseDetails.getD
        emptyResponseDetails).respondedAt ∧
    [samplePendingIncident].length ≤
      (checkForEmergencies 3 [] [samplePendingIncident]).length ∧
    [samplePendingIncident].length ≤
      (focusOnVehicle 3 sampleOtherVehicle [samplePendingIncident]).length :=
  incident_ops_frame 2 3 3 samplePendingIncident samplePendingIncident
    [samplePendingIncident] [] sampleOtherVehicle
    (by decide) (by decide) (by decide)

/-- C10: emergency implies critical: whenever the classifier sets the
requiresEmergencyResponse flag, the risk level it returns is critical. -/
theorem emergency_implies_critical (t l : ℚ) (c : ℤ)
    (h : (generateBatteryHealth t l c).requiresEmergencyResponse = true) :
    (generateBatteryHealth t l c).riskLevel = .critical := by
  rw [generateBatteryHealth_flag] at h
  simp only [Bool.or_eq_true, Bool.and_eq_true, decide_eq_true_eq] at h
  rw [generateBatteryHealth_riskLevel,
    if_pos (h.elim Or.inl (fun hx => Or.inr (Or.inl hx)))]

/-- C10 witness. -/
theorem emergency_implies_critical_witness :
    (generateBatteryHealth 50 10 100).riskLevel = .critical :=
  emergency_implies_critical 50 10 100 (by
    norm_num [generateBatteryHealth, EMERGENCY_THRESHOLDS])

/-- Left cancellation for string concatenation, used to show distinct vehicle
ids yield distinct incident ids. -/
theorem string_append_left_cancel {s t u : String} (h : s ++ t = s ++ u) :
    t = u := by
  have hdata : s.data ++ t.data = s.data ++ u.data := by
    have h2 := congrArg String.data h
    simpa [String.data_append] using h2
  have h3 := List.append_cancel_left hdata
  cases t
  cases u
  simp only at h3
  rw [h3]

/-- For a fixed clock value, the incident id template is injective in the
vehicle id. -/
theorem mkIncidentId_injective (now : Nat) :
    Function.Injective (mkIncidentId now) := by
  intro a b h
  exact string_append_left_cancel h

/-- Replacing a matching incident never changes the stored ids. -/
theorem incidentIds_onUpdateIncident (upd : EmergencyIncident)
    (incs : List EmergencyIncident) :
    (onUpdateIncident upd incs).map EmergencyIncident.id =
      incs.map EmergencyIncident.id := by
  unfold onUpdateIncident
  rw [List.map_map]
  apply List.map_congr_left
  intro a ha
  by_cases hid : a.id = upd.id
  · simp [Function.comp, hid]
  · simp [Function.comp, hid]

/-- onUpdateIncident is the identity when no stored incident carries the id of
the update. -/
theorem onUpdateIncident_of_not_mem (upd : EmergencyIncident) :
    ∀ (incs : List EmergencyIncident), (∀ x ∈ incs, x.id ≠ upd.id) →
      onUpdateIncident upd incs = incs := by
  intro incs
  induction incs with
  | nil => intro h; rfl
  | cons a tl ih =>
    intro h
    unfold onUpdateIncident at ih ⊢
    rw [List.map_cons, if_neg (h a (List.mem_cons_self a tl)),
      ih (fun x hx => h x (List.mem_cons_of_mem a hx))]

/-- Replacing the unique incident carrying a given id trades its contribution
to any countP for the contribution of the update. -/
theorem countP_onUpdateIncident (p : EmergencyIncident → Bool)
    (upd i : EmergencyIncident) :
    ∀ (incs : List EmergencyIncident), i ∈ incs →
      (incs.map EmergencyIncident.id).Nodup → upd.id = i.id →
      (onUpdateIncident upd incs).countP p + (if p i then 1 else 0) =
        incs.countP p + (if p upd then 1 else 0) := by
  intro incs
  induction incs with
  | nil => intro hmem; cases hmem
  | cons a tl ih =>
    intro hmem hnd hid
    rw [List.map_cons, List.nodup_cons] at hnd
    obtain ⟨hna, hndtl⟩ := hnd
    unfold onUpdateIncident
    rw [List.map_cons]
    rcases List.mem_cons.mp hmem with rfl | htl
    · rw [if_pos hid.symm]
      have htail : onUpdateIncident upd tl = tl :=
        onUpdateIncident_of_not_mem upd tl (fun x hx hxe => by
          exact hna (by rw [← hid, ← hxe]; exact List.mem_map_of_mem _ hx))
      unfold onUpdateIncident at htail
      rw [htail, List.countP_cons, List.countP_cons]
      omega
    · have hane : ¬(a.id = upd.id) := fun hae => by
        have : a.id ∈ tl.map EmergencyIncident.id := by
          rw [hae, hid]
          exact List.mem_map_of_mem _ htl
        exact hna this
      rw [if_neg hane]
      have hrec := ih htl hndtl hid
      unfold onUpdateIncident at hrec
      rw [List.countP_cons, List.countP_cons]
      omega

/-- Bound on the number of list entries equal to a given value in a
duplicate-free list. -/
theorem countP_eq_le_one_of_nodup {α : Type} [DecidableEq α] (x : α) :
    ∀ (l : List α), l.Nodup → l.countP (fun a => decide (a = x)) ≤ 1 := by
  intro l
  induction l with
  | nil => intro h; simp
  | cons a tl ih =>
    intro h
    rw [List.nodup_cons] at h
    obtain ⟨ha, htl⟩ := h
    by_cases hax : a = x
    · rw [List.countP_cons_of_pos _ _ (by simp [hax])]
      have hz : tl.countP (fun a => decide (a = x)) = 0 :=
        List.countP_eq_zero.mpr (fun b hb hbx => by
          rw [decide_eq_true_eq] at hbx
          exact ha (by rw [hax, ← hbx]; exact hb))
      omega
    · rw [List.countP_cons_of_neg _ _ (by simp [hax])]
      exact ih htl

/-- An open incident is not resolved. -/
theorem isOpen_ne_resolved (i : EmergencyIncident)
    (h : isOpenIncident i = true) :
    (decide (i.status = IncidentStatus.resolved)) = false := by
  unfold isOpenIncident at h
  cases hs : i.status <;> simp [hs] at h ⊢

/-- The state invariant maintained by the incident operations: stored incident
ids are pairwise distinct, and every vehicle id has at most one open
incident. -/
def IncidentInvariant (incs : List EmergencyIncident) : Prop :=
  (incs.map EmergencyIncident.id).Nodup ∧ ∀ vid, openCount incs vid ≤ 1

/-- The Mark Responded operation preserves the invariant: it turns the pending
incident it finds into a responded one, which is still open and references the
same vehicle, so per-vehicle open counts are unchanged. -/
theorem markResponded_invariant (now : Nat) (iid : String)
    (incs : List EmergencyIncident) (h : IncidentInvariant incs) :
    IncidentInvariant (markResponded now iid incs) := by
  obtain ⟨hnd, hopen⟩ := h
  unfold markResponded
  cases hfind : incs.find? (fun i => decide (i.id = iid) &&
      decide (i.status = IncidentStatus.pending)) with
  | none => exact ⟨hnd, hopen⟩
  | some i =>
    show IncidentInvariant (onUpdateIncident (handleRespond now i) incs)
    have hmem := List.mem_of_find?_eq_some hfind
    have hprop := List.find?_some hfind
    rw [Bool.and_eq_true, decide_eq_true_eq, decide_eq_true_eq] at hprop
    obtain ⟨hiid, hpend⟩ := hprop
    refine ⟨?_, ?_⟩
    · rw [incidentIds_onUpdateIncident]
      exact hnd
    · intro vid
      have hbal := countP_onUpdateIncident (openFor vid)
        (handleRespond now i) i incs hmem hnd rfl
      have heq : openFor vid (handleRespond now i) = openFor vid i := by
        unfold openFor isOpenIncident handleRespond
        simp [hpend]
      rw [heq] at hbal
      have hle := hopen vid
      unfold openCount at hle ⊢
      omega

/-- The Mark Resolved operation preserves the invariant: it closes the
responded incident it finds, so per-vehicle open counts never increase. -/
theorem markResolved_invariant (now : Nat) (iid : String)
    (incs : List EmergencyIncident) (h : IncidentInvariant incs) :
    IncidentInvariant (markResolved now iid incs) := by
  obtain ⟨hnd, hopen⟩ := h
  unfold markResolved
  cases hfind : incs.find? (fun i => decide (i.id = iid) &&
      decide (i.status = IncidentStatus.responded)) with
  | none => exact ⟨hnd, hopen⟩
  | some i =>
    show IncidentInvariant (onUpdateIncident (handleResolve now i) incs)
    have hmem := List.mem_of_find?_eq_some hfind
    have hprop := List.find?_some hfind
    rw [Bool.and_eq_true, decide_eq_true_eq, decide_eq_true_eq] at hprop
    obtain ⟨hiid, hresp⟩ := hprop
    refine ⟨?_, ?_⟩
    · rw [incidentIds_onUpdateIncident]
      exact hnd
    · intro vid
      have hbal := countP_onUpdateIncident (openFor vid)
        (handleResolve now i) i incs hmem hnd rfl
      have heq : openFor vid (handleResolve now i) = false := by
        unfold openFor isOpenIncident handleResolve
        simp
      rw [heq] at hbal
      simp only [Bool.false_eq_true, if_false] at hbal
      have hle := hopen vid
      unfold openCount at hle ⊢
      omega

/-- Appending one freshly generated pending incident per selected vehicle
preserves the invariant, provided vehicle ids are pairwise distinct, the
generated ids are fresh, and every selected vehicle has no open incident. -/
theorem append_generated_invariant (now : Nat) (vs : List Vehicle)
    (q : Vehicle → Bool) (incs : List EmergencyIncident)
    (hvs : (vs.map Vehicle.id).Nodup)
    (hfresh : ∀ i ∈ incs, ∀ v ∈ vs, i.id ≠ mkIncidentId now v.id)
    (hnd : (incs.map EmergencyIncident.id).Nodup)
    (hopen : ∀ vid, openCount incs vid ≤ 1)
    (hq : ∀ v ∈ vs, q v = true → ∀ i ∈ incs, openFor v.id i = false) :
    IncidentInvariant
      (incs ++ (vs.filter q).map (generateEmergencyIncident now)) := by
  have hfsub : List.Sublist (vs.filter q) vs := List.filter_sublist vs
  constructor
  · rw [List.map_append, List.map_map]
    have hids : (EmergencyIncident.id ∘ generateEmergencyIncident now) =
        (mkIncidentId now ∘ Vehicle.id) := rfl
    rw [hids, ← List.map_map]
    apply List.nodup_append.mpr
    refine ⟨hnd, ?_, ?_⟩
    · exact List.Nodup.map (mkIncidentId_injective now)
        ((hfsub.map Vehicle.id).nodup hvs)
    · intro a ha hb
      rcases List.mem_map.mp ha with ⟨i, hi, ha2⟩
      rcases List.mem_map.mp hb with ⟨s, hs, hb2⟩
      rcases List.mem_map.mp hs with ⟨v, hv, hs2⟩
      exact hfresh i hi v (hfsub.subset hv) (by rw [ha2, ← hb2, ← hs2])
  · intro vid
    unfold openCount
    rw [List.countP_append]
    have hmap : ((vs.filter q).map (generateEmergencyIncident now)).countP
        (openFor vid) = (vs.filter q).countP (fun v => decide (v.id = vid)) := by
      rw [List.countP_map]
      apply List.countP_congr
      intro v hv
      unfold Function.comp openFor isOpenIncident generateEmergencyIncident
      simp
    rw [hmap]
    by_cases hpos : 0 < (vs.filter q).countP (fun v => decide (v.id = vid))
    · rcases List.countP_pos_iff.mp hpos with ⟨v, hvf, hvid⟩
      rw [decide_eq_true_eq] at hvid
      rcases List.mem_filter.mp hvf with ⟨hvvs, hqv⟩
      have hzero : incs.countP (openFor vid) = 0 :=
        List.countP_eq_zero.mpr (fun i hi => by
          have hf := hq v hvvs hqv i hi
          rw [hvid] at hf
          simp [hf])
      have hone : (vs.filter q).countP (fun v => decide (v.id = vid)) ≤ 1 := by
        calc (vs.filter q).countP (fun v => decide (v.id = vid))
            ≤ vs.countP (fun v => decide (v.id = vid)) := hfsub.countP_le _
          _ = (vs.map Vehicle.id).countP (fun s => decide (s = vid)) := by
            rw [List.countP_map]
            apply List.countP_congr
            intro v hv
            simp [Function.comp]
          _ ≤ 1 := countP_eq_le_one_of_nodup vid _ hvs
      rw [hzero]
      omega
    · have h0 : (vs.filter q).countP (fun v => decide (v.id = vid)) = 0 := by
        omega
      rw [h0]
      have hle := hopen vid
      unfold openCount at hle
      omega

/-- The periodic scan preserves the invariant. -/
theorem checkForEmergencies_invariant (now : Nat) (vs : List Vehicle)
    (incs : List EmergencyIncident)
    (hvs : (vs.map Vehicle.id).Nodup)
    (hfresh : ∀ i ∈ incs, ∀ v ∈ vs, i.id ≠ mkIncidentId now v.id)
    (h : IncidentInvariant incs) :
    IncidentInvariant (checkForEmergencies now vs incs) := by
  obtain ⟨hnd, hopen⟩ := h
  unfold checkForEmergencies
  apply append_generated_invariant now vs _ incs hvs hfresh hnd hopen
  intro v hv hqv i hi
  rw [Bool.and_eq_true, Bool.not_eq_true'] at hqv
  obtain ⟨hemerg, hnoinc⟩ := hqv
  rw [List.any_eq_false] at hnoinc
  have hni := hnoinc i hi
  unfold openFor
  rw [Bool.and_eq_true] at hni
  push_neg at hni
  by_cases hvid : decide (i.vehicleId = v.id) = true
  · have hstat := hni hvid
    have hres : i.status = IncidentStatus.resolved := by
      by_contra hc
      exact hstat (by simp [hc])
    rw [hvid, Bool.true_and]
    unfold isOpenIncident
    rw [hres]
    simp
  · rw [Bool.eq_false_iff.mpr hvid, Bool.false_and]

/-- Focusing on a vehicle preserves the invariant. -/
theorem focusOnVehicle_invariant (now : Nat) (v : Vehicle)
    (incs : List EmergencyIncident)
    (hfresh : ∀ i ∈ incs, i.id ≠ mkIncidentId now v.id)
    (h : IncidentInvariant incs) :
    IncidentInvariant (focusOnVehicle now v incs) := by
  obtain ⟨hnd, hopen⟩ := h
  unfold focusOnVehicle
  split
  · exact ⟨hnd, hopen⟩
  · next hguard =>
    have hguard2 : incs.any (openFor v.id) = false :=
      Bool.eq_false_iff.mpr hguard
    rw [List.any_eq_false] at hguard2
    constructor
    · rw [List.map_append]
      apply List.nodup_append.mpr
      refine ⟨hnd, List.nodup_singleton _, ?_⟩
      intro a ha hb
      rcases List.mem_map.mp ha with ⟨i, hi, ha2⟩
      rcases List.mem_singleton.mp hb with hb2
      exact hfresh i hi (by rw [ha2, hb2]; rfl)
    · intro vid
      unfold openCount
      rw [List.countP_append]
      have hsing : ([generateEmergencyIncident now v].countP (openFor vid)) =
          if decide (v.id = vid) = true then 1 else 0 := by
        rw [List.countP_cons, List.countP_nil]
        unfold openFor isOpenIncident generateEmergencyIncident
        simp
      rw [hsing]
      by_cases hvid : v.id = vid
      · have hzero : incs.countP (openFor vid) = 0 :=
          List.countP_eq_zero.mpr (fun i hi => by
            have hf := hguard2 i hi
            rw [hvid] at hf
            simp [hf])
        rw [hzero, hvid]
        simp
      · have hle := hopen vid
        unfold openCount at hle
        rw [if_neg (by simp [hvid])]
        omega

/-- Incident collections reachable from the empty collection through the four
operations of the app that touch incident state.  The side conditions on the
creating operations record facts about the environment of the source: the
synthesizer numbers vehicles with consecutive distinct ids (part_000 line
172), and the wall clock read by generateEmergencyIncident never reproduces an
id already stored (Date.now is non-decreasing across operations). -/
inductive Reachable : List EmergencyIncident → Prop where
  | empty : Reachable []
  | scan (now : Nat) (vs : List Vehicle) (incs : List EmergencyIncident) :
      Reachable incs →
      (vs.map Vehicle.id).Nodup →
      (∀ i ∈ incs, ∀ v ∈ vs, i.id ≠ mkIncidentId now v.id) →
      Reachable (checkForEmergencies now vs incs)
  | focus (now : Nat) (v : Vehicle) (incs : List EmergencyIncident) :
      Reachable incs →
      (∀ i ∈ incs, i.id ≠ mkIncidentId now v.id) →
      Reachable (focusOnVehicle now v incs)
  | respond (now : Nat) (iid : String) (incs : List EmergencyIncident) :
      Reachable incs → Reachable (markResponded now iid incs)
  | resolve (now : Nat) (iid : String) (incs : List EmergencyIncident) :
      Reachable incs → Reachable (markResolved now iid incs)

/-- Every reachable incident collection satisfies the invariant. -/
theorem reachable_invariant {incs : List EmergencyIncident}
    (h : Reachable incs) : IncidentInvariant incs := by
  induction h with
  | empty =>
    exact ⟨List.nodup_nil, fun vid => by
      unfold openCount
      simp⟩
  | scan now vs incs hr hvs hfresh ih =>
    exact checkForEmergencies_invariant now vs incs hvs hfresh ih
  | focus now v incs hr hfresh ih =>
    exact focusOnVehicle_invariant now v incs hfresh ih
  | respond now iid incs hr ih =>
    exact markResponded_invariant now iid incs ih
  | resolve now iid incs hr ih =>
    exact markResolved_invariant now iid incs ih

/-- C1: for every reachable incident collection there is at most one open
incident (status pending or responded) per vehicle id.  Starting from the
empty collection, the scan and focusOnVehicle append a pending incident for a
vehicle only when no incident for that vehicle with status in pending or
responded is present (the scan checks status not resolved, which is the same
set), and the respond and resolve operations never create a second open
incident, so the bound holds after any sequence of operations. -/
theorem reachable_at_most_one_open (incs : List EmergencyIncident)
    (vid : String) (h : Reachable incs) : openCount incs vid ≤ 1 :=
  (reachable_invariant h).2 vid

/-- Concrete vehicle in an emergency state, used by the C1 witness. -/
def sampleVehicle : Vehicle :=
  { id := "v1"
    location := { latitude := 0, longitude := 0 }
    batteryLevel := 10
    batteryHealth := generateBatteryHealth 50 10 100 }

/-- C1 witness. -/
theorem reachable_at_most_one_open_witness :
    openCount (checkForEmergencies 1 [sampleVehicle] []) "v1" ≤ 1 :=
  reachable_at_most_one_open (checkForEmergencies 1 [sampleVehicle] []) "v1"
    (Reachable.scan 1 [sampleVehicle] [] Reachable.empty (by decide) (by decide))

end BatteryHackathon
